import Mathlib

/-!
# Verification of the Anthropic → Groq proxy (`proxy.py`)

A shallow embedding of the translation core of `proxy.py`:

* `Json`, `Json.dumps`, `Json.parse` model the JSON values handled by the
  Python `json` module (`json.dumps` with its default separators and
  `json.loads`).  Numbers are modelled as integers; floating-point literals
  are outside the model.
* `convert_messages`, `convert_tools`, `convert_tool_calls_to_anthropic`
  embed the conversion helpers of the source file.
* `effective_max_tokens` and `upstream_request` embed the request side of the
  `proxy` route (lines 117–135); `proxy_response` embeds its response side
  (lines 137–159), with the upstream completion modelled as the first (and
  only) choice read by the source (`completion.choices[0].message`) together
  with its usage counts.

Python truthiness (`x or y`, `if xs:`) is embedded explicitly by the
`py_or_*` helpers and by `List.isEmpty` tests on optional lists.
-/

set_option autoImplicit false

/-- A JSON value, as handled by Python's `json` module.  Numbers are modelled
as integers (the proxy never manipulates fractional numbers). -/
inductive Json where
  | null : Json
  | bool (b : Bool) : Json
  | num (n : Int) : Json
  | str (s : String) : Json
  | arr (elems : List Json) : Json
  | obj (fields : List (String × Json)) : Json

/-- Lower-case hexadecimal digit, as produced by Python's `json.dumps`
Unicode escapes. -/
def hexDigitChar (n : Nat) : Char :=
  if n < 10 then Char.ofNat (48 + n) else Char.ofNat (87 + n)

/-- Four-digit hexadecimal rendering used in `\uXXXX` escapes. -/
def toHex4 (n : Nat) : String :=
  String.mk [hexDigitChar (n / 4096 % 16), hexDigitChar (n / 256 % 16),
             hexDigitChar (n / 16 % 16), hexDigitChar (n % 16)]

/-- Escaping of a single character inside a JSON string literal, following
`json.dumps` with its default `ensure_ascii=True`. -/
def escapeChar (c : Char) : String :=
  if c = '"' then "\\\""
  else if c = '\\' then "\\\\"
  else if c = '\n' then "\\n"
  else if c = '\t' then "\\t"
  else if c = '\r' then "\\r"
  else if c.toNat = 8 then "\\b"
  else if c.toNat = 12 then "\\f"
  else if c.toNat < 32 ∨ 126 < c.toNat then "\\u" ++ toHex4 c.toNat
  else String.singleton c

/-- JSON rendering of a string, with surrounding quotes. -/
def encodeString (s : String) : String :=
  "\"" ++ String.join (s.toList.map escapeChar) ++ "\""

mutual

/-- Model of Python's `json.dumps` with its default separators
(`", "` between items, `": "` after keys). -/
def Json.dumps : Json → String
  | .null => "null"
  | .bool true => "true"
  | .bool false => "false"
  | .num n => toString n
  | .str s => encodeString s
  | .arr elems => "[" ++ dumpsList elems ++ "]"
  | .obj fields => "\x7b" ++ dumpsFields fields ++ "\x7d"

/-- Comma-separated rendering of array elements. -/
def dumpsList : List Json → String
  | [] => ""
  | [j] => Json.dumps j
  | j :: rest => Json.dumps j ++ ", " ++ dumpsList rest

/-- Comma-separated rendering of object members. -/
def dumpsFields : List (String × Json) → String
  | [] => ""
  | [(k, v)] => encodeString k ++ ": " ++ Json.dumps v
  | (k, v) :: rest => encodeString k ++ ": " ++ Json.dumps v ++ ", " ++ dumpsFields rest

end

/-- JSON whitespace. -/
def isJsonWs (c : Char) : Bool :=
  c == ' ' || c == '\n' || c == '\t' || c == '\r'

/-- Drop leading JSON whitespace. -/
def skipWs : List Char → List Char
  | [] => []
  | c :: rest => if isJsonWs c then skipWs rest else c :: rest

/-- Decoding of a backslash escape inside a JSON string literal
(`\uXXXX` escapes are outside the model). -/
def escDecode (c : Char) : Option Char :=
  if c = '"' then some '"'
  else if c = '\\' then some '\\'
  else if c = '/' then some '/'
  else if c = 'n' then some '\n'
  else if c = 't' then some '\t'
  else if c = 'r' then some '\r'
  else if c = 'b' then some (Char.ofNat 8)
  else if c = 'f' then some (Char.ofNat 12)
  else none

/-- Parse the remainder of a JSON string literal after the opening quote,
returning the decoded string and the unconsumed input. -/
def parseStringRest : List Char → Option (String × List Char)
  | [] => none
  | '\\' :: c :: rest =>
    match escDecode c with
    | none => none
    | some e =>
      match parseStringRest rest with
      | none => none
      | some (s, r) => some (String.singleton e ++ s, r)
  | '"' :: rest => some ("", rest)
  | c :: rest =>
    match parseStringRest rest with
    | none => none
    | some (s, r) => some (String.singleton c ++ s, r)

/-- Split a leading run of decimal digits from the input. -/
def takeDigits : List Char → (List Char × List Char)
  | [] => ([], [])
  | c :: rest =>
    if c.isDigit then
      match takeDigits rest with
      | (ds, r) => (c :: ds, r)
    else ([], c :: rest)

/-- Numeric value of a digit run. -/
def digitsToNat (ds : List Char) : Nat :=
  ds.foldl (fun acc c => acc * 10 + (c.toNat - 48)) 0

/-- Parse a JSON integer literal (fractions and exponents are outside the
model). -/
def parseNum : List Char → Option (Json × List Char)
  | '-' :: rest =>
    (match takeDigits rest with
     | ([], _) => none
     | (ds, r) => some (Json.num (-(digitsToNat ds : Int)), r))
  | cs =>
    match takeDigits cs with
    | ([], _) => none
    | (ds, r) => some (Json.num (digitsToNat ds), r)

mutual

/-- Fuelled recursive-descent JSON value parsing; model of `json.loads`. -/
def parseVal : Nat → List Char → Option (Json × List Char)
  | 0, _ => none
  | fuel + 1, cs =>
    match skipWs cs with
    | 'n' :: 'u' :: 'l' :: 'l' :: rest => some (Json.null, rest)
    | 't' :: 'r' :: 'u' :: 'e' :: rest => some (Json.bool true, rest)
    | 'f' :: 'a' :: 'l' :: 's' :: 'e' :: rest => some (Json.bool false, rest)
    | '"' :: rest =>
      (match parseStringRest rest with
       | none => none
       | some (s, r) => some (Json.str s, r))
    | '[' :: rest =>
      (match skipWs rest with
       | ']' :: r => some (Json.arr [], r)
       | cs' =>
         match parseItems fuel cs' with
         | none => none
         | some (items, r) => some (Json.arr items, r))
    | '\x7b' :: rest =>
      (match skipWs rest with
       | '\x7d' :: r => some (Json.obj [], r)
       | cs' =>
         match parseMembers fuel cs' with
         | none => none
         | some (fields, r) => some (Json.obj fields, r))
    | cs' => parseNum cs'

/-- Parse the elements of a non-empty JSON array, up to and including the
closing bracket. -/
def parseItems : Nat → List Char → Option (List Json × List Char)
  | 0, _ => none
  | fuel + 1, cs =>
    match parseVal fuel cs with
    | none => none
    | some (j, rest) =>
      match skipWs rest with
      | ',' :: r =>
        (match parseItems fuel r with
         | none => none
         | some (items, r') => some (j :: items, r'))
      | ']' :: r => some ([j], r)
      | _ => none

/-- Parse the members of a non-empty JSON object, up to and including the
closing brace. -/
def parseMembers : Nat → List Char → Option (List (String × Json) × List Char)
  | 0, _ => none
  | fuel + 1, cs =>
    match skipWs cs with
    | '"' :: rest =>
      (match parseStringRest rest with
       | none => none
       | some (k, r1) =>
         match skipWs r1 with
         | ':' :: r2 =>
           (match parseVal fuel r2 with
            | none => none
            | some (v, r3) =>
              match skipWs r3 with
              | ',' :: r4 =>
                (match parseMembers fuel r4 with
                 | none => none
                 | some (fields, r5) => some ((k, v) :: fields, r5))
              | '\x7d' :: r4 => some ([(k, v)], r4)
              | _ => none)
         | _ => none)
    | _ => none

end

/-- Model of `json.loads`: parse a whole string as one JSON value, requiring
only trailing whitespace after it.  `none` models a raised
`json.JSONDecodeError`. -/
def Json.parse (s : String) : Option Json :=
  match parseVal (s.length + 1) s.toList with
  | none => none
  | some (j, rest) => if (skipWs rest).isEmpty then some j else none

example : Json.parse "\x7b\x7d" = some (Json.obj []) := by rfl
example : Json.parse "\x7bbad json" = none := by rfl
example : Json.parse " [1, -2, \"a\"] " =
    some (Json.arr [Json.num 1, Json.num (-2), Json.str "a"]) := by rfl
example : Json.dumps (Json.obj [("a", Json.num 1), ("b", Json.str "x")]) =
    "\x7b\"a\": 1, \"b\": \"x\"\x7d" := by rfl

/-! ## Static configuration (`proxy.py` lines 21–22) -/

/-- The fixed upstream model identity (`GROQ_MODEL`, line 21). -/
def GROQ_MODEL : String := "moonshotai/kimi-k2-instruct"

/-- The configured output-token ceiling (`GROQ_MAX_OUTPUT_TOKENS`, line 22). -/
def GROQ_MAX_OUTPUT_TOKENS : Int := 16384

/-! ## Anthropic schema (`proxy.py` lines 26–57) -/

/-- `Literal["user", "assistant"]` — the two permitted message roles. -/
inductive Role where
  | user : Role
  | assistant : Role
deriving DecidableEq

/-- A content block of an inbound Anthropic message: `ContentBlock` (text),
`ToolUseBlock` or `ToolResultBlock` of the source. -/
inductive Block where
  | text (text : String) : Block
  | tool_use (id : String) (name : String) (input : List (String × Json)) : Block
  | tool_result (tool_use_id : String) (content : Json) : Block

/-- `Message.content`: either a plain string or a list of content blocks. -/
inductive MessageContent where
  | str (s : String) : MessageContent
  | blocks (bs : List Block) : MessageContent

/-- An inbound Anthropic message. -/
structure Message where
  role : Role
  content : MessageContent

/-- An Anthropic tool declaration. -/
structure Tool where
  name : String
  description : Option String
  input_schema : List (String × Json)

/-- How the caller supplied an optional JSON field: absent from the payload,
explicitly `null`, or an explicit value.  Pydantic's `Optional[int] = 1024`
turns `absent` into the default and `null` into `None`. -/
inductive JsonField (α : Type) where
  | absent : JsonField α
  | null : JsonField α
  | value (a : α) : JsonField α
deriving DecidableEq

/-- Pydantic validation of the `max_tokens` field of `MessagesRequest`
(line 53): the default `1024` applies only when the field is absent; an
explicit `null` validates to `None`. -/
def parse_max_tokens : JsonField Int → Option Int
  | .absent => some 1024
  | .null => none
  | .value n => some n

/-- `tool_choice`: `Union[str, Dict[str, str]]`. -/
inductive ToolChoice where
  | str (s : String) : ToolChoice
  | obj (fields : List (String × String)) : ToolChoice
deriving DecidableEq

/-- The validated inbound request body (`MessagesRequest`, lines 50–57).
Optional fields hold their post-validation values. -/
structure MessagesRequest where
  model : String
  messages : List Message
  max_tokens : Option Int
  temperature : Option Rat
  stream : Option Bool
  tools : Option (List Tool)
  tool_choice : Option ToolChoice

/-! ## Request conversion helpers (`proxy.py` lines 62–96) -/

/-- A flattened OpenAI-style message `{"role": ..., "content": ...}`. -/
structure FlatMessage where
  role : Role
  content : String
deriving DecidableEq

/-- Rendering of one content block into a transcript fragment, as in the
body of the block loop of `convert_messages` (lines 70–78). -/
def renderBlock : Block → String
  | .text t => t
  | .tool_use _id name input =>
    "[Tool Use: " ++ name ++ "] " ++ Json.dumps (Json.obj input)
  | .tool_result _tool_use_id content =>
    "<tool_result>" ++ Json.dumps content ++ "</tool_result>"

/-- Conversion of one inbound message into a flat message: a string content
passes through unchanged, a block list is rendered block by block and the
fragments are joined with a newline (lines 64–80). -/
def convertMessage (m : Message) : FlatMessage :=
  match m.content with
  | .str s => { role := m.role, content := s }
  | .blocks bs => { role := m.role, content := String.intercalate "\n" (bs.map renderBlock) }

/-- `convert_messages` (lines 62–81): converts every message in order. -/
def convert_messages (messages : List Message) : List FlatMessage :=
  messages.map convertMessage

/-- Python `x or y` on an optional string (`t.description or ""`, line 91):
`None` and the empty string are falsy. -/
def py_or_str (x : Option String) (d : String) : String :=
  match x with
  | none => d
  | some s => if s = "" then d else s

/-- The `function` part of an OpenAI tool record. -/
structure OAFunction where
  name : String
  description : String
  parameters : List (String × Json)

/-- An OpenAI tool record `{"type": "function", "function": {...}}`. -/
structure OATool where
  type : String
  function : OAFunction

/-- `convert_tools` (lines 85–96). -/
def convert_tools (tools : List Tool) : List OATool :=
  tools.map fun t =>
    { type := "function"
      function :=
        { name := t.name
          description := py_or_str t.description ""
          parameters := t.input_schema } }

/-! ## Token clamping and the normalized upstream request
(`proxy.py` lines 120–135) -/

/-- Python `x or y` on an optional integer (`request.max_tokens or
GROQ_MAX_OUTPUT_TOKENS`, line 123): `None` and `0` are falsy. -/
def py_or_int (x : Option Int) (d : Int) : Int :=
  match x with
  | none => d
  | some n => if n = 0 then d else n

/-- The effective max-token value sent upstream (line 123):
`min(request.max_tokens or GROQ_MAX_OUTPUT_TOKENS, GROQ_MAX_OUTPUT_TOKENS)`. -/
def effective_max_tokens (max_tokens : Option Int) : Int :=
  min (py_or_int max_tokens GROQ_MAX_OUTPUT_TOKENS) GROQ_MAX_OUTPUT_TOKENS

/-- The argument record of the upstream `client.chat.completions.create`
call (lines 128–135). -/
structure NormalizedRequest where
  model : String
  messages : List FlatMessage
  temperature : Option Rat
  max_tokens : Int
  tools : Option (List OATool)
  tool_choice : Option ToolChoice

/-- The normalized request built by the `proxy` route before calling the
external completion capability (lines 120–135).  `tools` follows the Python
truthiness of line 121: `None` or an empty tool list yields `None`. -/
def upstream_request (r : MessagesRequest) : NormalizedRequest :=
  { model := GROQ_MODEL
    messages := convert_messages r.messages
    temperature := r.temperature
    max_tokens := effective_max_tokens r.max_tokens
    tools :=
      match r.tools with
      | none => none
      | some ts => if ts.isEmpty then none else some (convert_tools ts)
    tool_choice := r.tool_choice }

/-! ## Response translation (`proxy.py` lines 99–110 and 137–159) -/

/-- The `function` part of an upstream function-call record: name and
JSON-encoded argument string. -/
structure ToolCallFunction where
  name : String
  arguments : String

/-- An upstream function-call record. -/
structure ToolCall where
  id : String
  function : ToolCallFunction

/-- The message of the first upstream choice (`completion.choices[0].message`,
lines 137–138): plain text content and an optional function-call list. -/
structure UpstreamMessage where
  content : String
  tool_calls : Option (List ToolCall)

/-- Upstream token usage counts. -/
structure Usage where
  prompt_tokens : Nat
  completion_tokens : Nat

/-- The upstream completion as read by the source: the message of its first
(and only) choice together with its usage counts. -/
structure Completion where
  message : UpstreamMessage
  usage : Usage

/-- A content block of the outbound Anthropic response: a text block or a
tool-use block. -/
inductive RespBlock where
  | text (text : String) : RespBlock
  | tool_use (id : String) (name : String) (input : Json) : RespBlock

/-- Failure of the response translation: `json.loads` raised on a
function-call argument string (line 103). -/
inductive TranslationError where
  | malformedToolArguments : TranslationError
deriving DecidableEq

/-- The `usage` object of the outbound response. -/
structure ResponseUsage where
  input_tokens : Nat
  output_tokens : Nat
deriving DecidableEq

/-- The outbound Anthropic response envelope (lines 147–159). -/
structure AnthropicResponse where
  id : String
  model : String
  role : String
  type : String
  content : List RespBlock
  stop_reason : String
  stop_sequence : Option String
  usage : ResponseUsage

/-- `convert_tool_calls_to_anthropic` (lines 99–110): each call's argument
string is parsed as JSON and becomes the `input` of one `tool_use` block; a
parse failure aborts the whole conversion. -/
def convert_tool_calls_to_anthropic : List ToolCall → Except TranslationError (List RespBlock)
  | [] => Except.ok []
  | call :: rest =>
    match Json.parse call.function.arguments with
    | none => Except.error TranslationError.malformedToolArguments
    | some args =>
      match convert_tool_calls_to_anthropic rest with
      | Except.error e => Except.error e
      | Except.ok blocks =>
        Except.ok (RespBlock.tool_use call.id call.function.name args :: blocks)

/-- The content / stop-reason decision of the `proxy` route (lines 140–145):
a truthy `tool_calls` list is converted to tool-use blocks with stop reason
`"tool_use"`; otherwise a single text block with stop reason `"end_turn"`. -/
def response_content (c : Completion) : Except TranslationError (List RespBlock × String) :=
  if (c.message.tool_calls.getD []).isEmpty then
    Except.ok ([RespBlock.text c.message.content], "end_turn")
  else
    match convert_tool_calls_to_anthropic (c.message.tool_calls.getD []) with
    | Except.error e => Except.error e
    | Except.ok blocks => Except.ok (blocks, "tool_use")

/-- The response envelope returned by the `proxy` route (lines 147–159).
`uuid_hex` stands for `uuid.uuid4().hex`; an argument-parse failure
propagates and no envelope is produced. -/
def proxy_response (uuid_hex : String) (c : Completion) :
    Except TranslationError AnthropicResponse :=
  match response_content c with
  | Except.error e => Except.error e
  | Except.ok (content, stop_reason) =>
    Except.ok
      { id := "msg_" ++ uuid_hex.take 12
        model := "groq/" ++ GROQ_MODEL
        role := "assistant"
        type := "message"
        content := content
        stop_reason := stop_reason
        stop_sequence := none
        usage :=
          { input_tokens := c.usage.prompt_tokens
            output_tokens := c.usage.completion_tokens } }

/-! ## Auxiliary definitions for the statements and witnesses -/

/-- `containsSubstr needle hay` decides whether `needle` occurs as a
contiguous substring of `hay`. -/
def containsSubstr (needle hay : String) : Bool :=
  hay.toList.tails.any fun t => needle.toList.isPrefixOf t

/-- A concrete message whose content is a block sequence. -/
def wBlocksMessage : Message :=
  { role := Role.user
    content := MessageContent.blocks
      [Block.text "hi",
       Block.tool_use "toolu_1" "get_weather" [("city", Json.str "Paris")],
       Block.tool_result "toolu_1" (Json.str "ok")] }

/-- A concrete message whose content is a plain string. -/
def wStrMessage : Message :=
  { role := Role.user, content := MessageContent.str "hi" }

/-- A concrete message with an empty block sequence. -/
def wEmptyBlocksMessage : Message :=
  { role := Role.user, content := MessageContent.blocks [] }

/-- A concrete tool declaration without a description. -/
def wTool : Tool :=
  { name := "get_weather", description := none, input_schema := [] }

/-- A concrete upstream function call whose arguments parse as JSON. -/
def wToolCall : ToolCall :=
  { id := "call_1", function := { name := "get_weather", arguments := "\x7b\x7d" } }

/-- A concrete upstream completion carrying one function call. -/
def wToolCompletion : Completion :=
  { message := { content := "", tool_calls := some [wToolCall] }
    usage := { prompt_tokens := 5, completion_tokens := 1 } }

/-- The envelope the proxy builds for `wToolCompletion` (with
`uuid_hex = "u"`). -/
def wToolResponse : AnthropicResponse :=
  { id := "msg_u"
    model := "groq/" ++ GROQ_MODEL
    role := "assistant"
    type := "message"
    content := [RespBlock.tool_use "call_1" "get_weather" (Json.obj [])]
    stop_reason := "tool_use"
    stop_sequence := none
    usage := { input_tokens := 5, output_tokens := 1 } }

/-- A concrete upstream completion with plain text and no function calls. -/
def wTextCompletion : Completion :=
  { message := { content := "hello", tool_calls := none }
    usage := { prompt_tokens := 5, completion_tokens := 1 } }

/-- The envelope the proxy builds for `wTextCompletion` (with
`uuid_hex = "u"`). -/
def wTextResponse : AnthropicResponse :=
  { id := "msg_u"
    model := "groq/" ++ GROQ_MODEL
    role := "assistant"
    type := "message"
    content := [RespBlock.text "hello"]
    stop_reason := "end_turn"
    stop_sequence := none
    usage := { input_tokens := 5, output_tokens := 1 } }

/-- A concrete upstream completion whose single function call carries a
malformed argument string (the spec's own scenario input). -/
def wBadCompletion : Completion :=
  { message :=
      { content := ""
        tool_calls := some
          [{ id := "call_1"
             function := { name := "get_weather", arguments := "\x7bbad json" } }] }
    usage := { prompt_tokens := 5, completion_tokens := 1 } }

/-! ## Helper lemmas -/

/-- Successful tool-call conversion: one `tool_use` block per call, in order,
with matching `id`/`name` and `input` equal to the JSON parse of the call's
argument string. -/
theorem convert_tool_calls_ok (calls : List ToolCall) (blocks : List RespBlock)
    (h : convert_tool_calls_to_anthropic calls = Except.ok blocks) :
    blocks.length = calls.length ∧
    ∀ (i : Nat) (call : ToolCall), calls[i]? = some call →
      ∃ args, Json.parse call.function.arguments = some args ∧
        blocks[i]? = some (RespBlock.tool_use call.id call.function.name args) := by
  induction calls generalizing blocks with
  | nil =>
    simp only [convert_tool_calls_to_anthropic, Except.ok.injEq] at h
    subst h
    exact ⟨rfl, by intro i call hc; simp at hc⟩
  | cons call rest ih =>
    simp only [convert_tool_calls_to_anthropic] at h
    cases hp : Json.parse call.function.arguments with
    | none => rw [hp] at h; cases h
    | some args =>
      rw [hp] at h
      cases hr : convert_tool_calls_to_anthropic rest with
      | error e => rw [hr] at h; cases h
      | ok bs =>
        rw [hr] at h
        simp only [Except.ok.injEq] at h
        subst h
        obtain ⟨hlen, hidx⟩ := ih bs hr
        refine ⟨by simp [hlen], ?_⟩
        intro i c hc
        cases i with
        | zero =>
          simp only [List.getElem?_cons_zero, Option.some.injEq] at hc
          subst hc
          exact ⟨args, hp, by simp⟩
        | succ j =>
          simp only [List.getElem?_cons_succ] at hc ⊢
          exact hidx j c hc

/-- A failing argument parse anywhere in the call list makes the whole
conversion fail with `MalformedToolArguments`. -/
theorem convert_tool_calls_err (calls : List ToolCall)
    (h : ∃ call ∈ calls, Json.parse call.function.arguments = none) :
    convert_tool_calls_to_anthropic calls =
      Except.error TranslationError.malformedToolArguments := by
  induction calls with
  | nil => obtain ⟨c, hc, _⟩ := h; cases hc
  | cons call rest ih =>
    obtain ⟨c, hc, hp⟩ := h
    simp only [convert_tool_calls_to_anthropic]
    cases hq : Json.parse call.function.arguments with
    | none => rfl
    | some args =>
      rcases List.mem_cons.mp hc with rfl | hmem
      · rw [hq] at hp; cases hp
      · rw [ih ⟨c, hmem, hp⟩]

/-! ## Claim theorems -/

/-- C1 (counterexample): the claim that a `ToolResult` block's `tool_use_id`
never appears anywhere in the rendered fragment is false: a block whose
`tool_use_id` is the string `"tool_result"` renders to a fragment that
contains that id, because the fixed delimiters themselves spell it out. -/
theorem tool_result_fragment_contains_id :
    containsSubstr "tool_result"
      (renderBlock (Block.tool_result "tool_result" Json.null)) = true := by
  rfl

/-- C1 (amended): a message whose content is a block sequence flattens to the
fragments of its blocks, in order, joined by a single newline; a `Text` block
renders verbatim, a `ToolUse` block as the fixed tag plus name plus
JSON-serialized input, a `ToolResult` block as the JSON-serialized payload in
the fixed delimiter pair; and the rendered fragment of a `ToolResult` block
does not depend on its `tool_use_id` (though the id may still occur as text
inside the fragment). -/
theorem convert_messages_block_rendering (m : Message) (bs : List Block)
    (h : m.content = MessageContent.blocks bs) :
    (convertMessage m).content = String.intercalate "\n" (bs.map renderBlock) ∧
    (∀ t, renderBlock (Block.text t) = t) ∧
    (∀ id name input, renderBlock (Block.tool_use id name input) =
      "[Tool Use: " ++ name ++ "] " ++ Json.dumps (Json.obj input)) ∧
    (∀ id content, renderBlock (Block.tool_result id content) =
      "<tool_result>" ++ Json.dumps content ++ "</tool_result>") ∧
    (∀ id id' content,
      renderBlock (Block.tool_result id content) =
        renderBlock (Block.tool_result id' content)) := by
  refine ⟨?_, fun t => rfl, fun id name input => rfl, fun id content => rfl,
    fun id id' content => rfl⟩
  obtain ⟨role, content⟩ := m
  cases h
  rfl

/-- C1 (witness): the amended theorem applied to a concrete three-block
message. -/
theorem convert_messages_block_rendering_witness :
    (convertMessage wBlocksMessage).content =
      String.intercalate "\n"
        ([Block.text "hi",
          Block.tool_use "toolu_1" "get_weather" [("city", Json.str "Paris")],
          Block.tool_result "toolu_1" (Json.str "ok")].map renderBlock) :=
  (convert_messages_block_rendering wBlocksMessage _ rfl).1

/-- C5: a plain-string content passes through `convert_messages` unchanged,
and the role field passes through for messages of either content shape. -/
theorem convert_messages_string_identity (m : Message) :
    (convertMessage m).role = m.role ∧
    (∀ s, m.content = MessageContent.str s → (convertMessage m).content = s) := by
  obtain ⟨role, content⟩ := m
  cases content with
  | str s => exact ⟨rfl, fun t ht => by cases ht; rfl⟩
  | blocks bs => exact ⟨rfl, fun t ht => by cases ht⟩

/-- C5 (witness): the identity law at a concrete string-content message. -/
theorem convert_messages_string_identity_witness :
    (convertMessage wStrMessage).content = "hi" :=
  (convert_messages_string_identity wStrMessage).2 "hi" rfl

/-- C6: `convert_tools` is a one-to-one, order-preserving mapping; each
output record has discriminator `"function"`, the tool's name, its
description (or the empty string when absent), and its `input_schema` as
`parameters`. -/
theorem convert_tools_spec (tools : List Tool) :
    (convert_tools tools).length = tools.length ∧
    ∀ (i : Nat) (t : Tool), tools[i]? = some t →
      ∃ o, (convert_tools tools)[i]? = some o ∧
        o.type = "function" ∧
        o.function.name = t.name ∧
        o.function.description = t.description.getD "" ∧
        o.function.parameters = t.input_schema := by
  refine ⟨by simp [convert_tools], ?_⟩
  intro i t ht
  refine ⟨{ type := "function"
            function := { name := t.name
                          description := py_or_str t.description ""
                          parameters := t.input_schema } },
    by simp [convert_tools, List.getElem?_map, ht], rfl, rfl, ?_, rfl⟩
  show py_or_str t.description "" = t.description.getD ""
  cases t.description with
  | none => rfl
  | some s =>
    by_cases hs : s = "" <;> simp [py_or_str, hs]

/-- C6 (witness): the mapping at a concrete description-less tool. -/
theorem convert_tools_spec_witness :
    ∃ o, (convert_tools [wTool])[0]? = some o ∧
      o.type = "function" ∧
      o.function.name = wTool.name ∧
      o.function.description = wTool.description.getD "" ∧
      o.function.parameters = wTool.input_schema :=
  (convert_tools_spec [wTool]).2 0 wTool rfl

/-- C10: `convert_messages` preserves the length and order of the message
list, and a message with an empty block sequence is kept, with the empty
string as its flattened content. -/
theorem convert_messages_preserves_shape (ms : List Message) :
    (convert_messages ms).length = ms.length ∧
    (∀ (i : Nat) (m : Message), ms[i]? = some m →
      (convert_messages ms)[i]? = some (convertMessage m)) ∧
    (∀ r, convertMessage { role := r, content := MessageContent.blocks [] } =
      { role := r, content := "" }) := by
  refine ⟨by simp [convert_messages], ?_, fun r => rfl⟩
  intro i m hm
  simp [convert_messages, List.getElem?_map, hm]

/-- C10 (witness): a one-element list holding an empty-block-sequence message
is mapped to a one-element list holding the message with empty content. -/
theorem convert_messages_preserves_shape_witness :
    (convert_messages [wEmptyBlocksMessage])[0]? =
      some (convertMessage wEmptyBlocksMessage) :=
  (convert_messages_preserves_shape [wEmptyBlocksMessage]).2.1 0 wEmptyBlocksMessage rfl

/-- C2: in a successfully translated response, `stop_reason = "tool_use"`
exactly when the completion carries at least one function call, in which case
the content is one `tool_use` block per call, in order, with matching id and
name and with `input` equal to the JSON parse of the call's arguments;
with zero calls the content is exactly one text block wrapping the
completion's plain text and `stop_reason = "end_turn"`. -/
theorem proxy_response_tool_use_spec (c : Completion) (u : String)
    (r : AnthropicResponse) (h : proxy_response u c = Except.ok r) :
    (r.stop_reason = "tool_use" ↔ c.message.tool_calls.getD [] ≠ []) ∧
    (c.message.tool_calls.getD [] = [] →
      r.content = [RespBlock.text c.message.content] ∧
      r.stop_reason = "end_turn") ∧
    (c.message.tool_calls.getD [] ≠ [] →
      r.stop_reason = "tool_use" ∧
      r.content.length = (c.message.tool_calls.getD []).length ∧
      ∀ (i : Nat) (call : ToolCall), (c.message.tool_calls.getD [])[i]? = some call →
        ∃ args, Json.parse call.function.arguments = some args ∧
          r.content[i]? =
            some (RespBlock.tool_use call.id call.function.name args)) := by
  unfold proxy_response at h
  by_cases hc : (c.message.tool_calls.getD []).isEmpty
  · have hnil : c.message.tool_calls.getD [] = [] := List.isEmpty_iff.mp hc
    rw [response_content, if_pos hc] at h
    simp only [Except.ok.injEq] at h
    subst h
    exact ⟨by simp [hnil], fun _ => ⟨rfl, rfl⟩, fun hne => absurd hnil hne⟩
  · have hne : c.message.tool_calls.getD [] ≠ [] :=
      fun hnil => hc (by simp [hnil])
    rw [response_content, if_neg hc] at h
    cases hconv : convert_tool_calls_to_anthropic (c.message.tool_calls.getD []) with
    | error e => rw [hconv] at h; cases h
    | ok blocks =>
      rw [hconv] at h
      simp only [Except.ok.injEq] at h
      subst h
      obtain ⟨hlen, hidx⟩ := convert_tool_calls_ok _ _ hconv
      exact ⟨by simp [hne], fun hnil => absurd hnil hne, fun _ => ⟨rfl, hlen, hidx⟩⟩

/-- C2 (witness): the theorem applied to a concrete completion carrying one
function call with argument string `"{}"`. -/
theorem proxy_response_tool_use_spec_witness :
    wToolResponse.stop_reason = "tool_use" ∧
    wToolResponse.content.length = (wToolCompletion.message.tool_calls.getD []).length ∧
    (∃ args, Json.parse wToolCall.function.arguments = some args ∧
      wToolResponse.content[0]? =
        some (RespBlock.tool_use wToolCall.id wToolCall.function.name args)) :=
  have h := proxy_response_tool_use_spec wToolCompletion "u" wToolResponse rfl
  ⟨(h.2.2 (List.cons_ne_nil _ _)).1,
   (h.2.2 (List.cons_ne_nil _ _)).2.1,
   (h.2.2 (List.cons_ne_nil _ _)).2.2 0 wToolCall rfl⟩

/-- C4: an upstream function call whose argument string is not valid JSON
makes the whole translation fail with `MalformedToolArguments`; no response
envelope (in particular no partial content) is ever produced. -/
theorem proxy_response_malformed_arguments (c : Completion) (u : String)
    (h : ∃ call ∈ c.message.tool_calls.getD [],
      Json.parse call.function.arguments = none) :
    proxy_response u c = Except.error TranslationError.malformedToolArguments ∧
    ∀ r, proxy_response u c ≠ Except.ok r := by
  have hne : c.message.tool_calls.getD [] ≠ [] := by
    obtain ⟨call, hm, _⟩ := h
    intro hnil
    rw [hnil] at hm
    cases hm
  have hconv := convert_tool_calls_err _ h
  have hrc : response_content c = Except.error TranslationError.malformedToolArguments := by
    rw [response_content, if_neg (fun he => hne (List.isEmpty_iff.mp he)), hconv]
  refine ⟨by rw [proxy_response, hrc], ?_⟩
  intro r hok
  rw [proxy_response, hrc] at hok
  cases hok

/-- C4 (witness): the theorem applied to the spec's own scenario, a function
call with argument string `"{bad json"`. -/
theorem proxy_response_malformed_arguments_witness :
    proxy_response "u" wBadCompletion =
      Except.error TranslationError.malformedToolArguments :=
  (proxy_response_malformed_arguments wBadCompletion "u"
    ⟨{ id := "call_1"
       function := { name := "get_weather", arguments := "\x7bbad json" } },
     List.mem_cons_self _ _, rfl⟩).1

/-- C7: every successfully translated response envelope has
`role = "assistant"`, `type = "message"`, `stop_sequence = null`, and its
usage counts are a direct rename of the completion's prompt/completion token
counts. -/
theorem proxy_response_envelope_fields (c : Completion) (u : String)
    (r : AnthropicResponse) (h : proxy_response u c = Except.ok r) :
    r.role = "assistant" ∧ r.type = "message" ∧ r.stop_sequence = none ∧
    r.usage.input_tokens = c.usage.prompt_tokens ∧
    r.usage.output_tokens = c.usage.completion_tokens := by
  cases hrc : response_content c with
  | error e => rw [proxy_response, hrc] at h; cases h
  | ok p =>
    obtain ⟨content, stop_reason⟩ := p
    rw [proxy_response, hrc] at h
    simp only [Except.ok.injEq] at h
    subst h
    exact ⟨rfl, rfl, rfl, rfl, rfl⟩

/-- C7 (witness): the envelope fields at a concrete plain-text completion. -/
theorem proxy_response_envelope_fields_witness :
    wTextResponse.role = "assistant" ∧ wTextResponse.type = "message" ∧
    wTextResponse.stop_sequence = none ∧
    wTextResponse.usage.input_tokens = wTextCompletion.usage.prompt_tokens ∧
    wTextResponse.usage.output_tokens = wTextCompletion.usage.completion_tokens :=
  proxy_response_envelope_fields wTextCompletion "u" wTextResponse rfl

/-- C3 (counterexample): the claimed clamping formula
`min(requested max_tokens, upper bound)` fails when the caller supplies
`max_tokens = 0`: Python's `or` treats `0` as falsy, so the code sends the
upper bound 16384 while the formula demands `min(0, 16384) = 0`. -/
theorem effective_max_tokens_zero_not_min :
    effective_max_tokens (parse_max_tokens (JsonField.value 0)) = 16384 ∧
    min (0 : Int) 16384 = 0 := by
  exact ⟨by decide, by decide⟩

/-- C3 (amended): for every request whose supplied `max_tokens` is a positive
integer the value sent upstream is `min(requested, 16384)` — in particular
the bound itself whenever the request exceeds the bound — and when the field
is absent the value sent is `min(1024, 16384) = 1024`.  (A supplied `null` or
`0` instead yields the upper bound; see C9.) -/
theorem effective_max_tokens_clamp (n : Int) (h : 0 < n) :
    effective_max_tokens (parse_max_tokens (JsonField.value n)) = min n 16384 ∧
    (16384 < n →
      effective_max_tokens (parse_max_tokens (JsonField.value n)) = 16384) ∧
    effective_max_tokens (parse_max_tokens JsonField.absent) = min 1024 16384 := by
  have hn : n ≠ 0 := ne_of_gt h
  have heq : effective_max_tokens (parse_max_tokens (JsonField.value n)) = min n 16384 := by
    simp [effective_max_tokens, parse_max_tokens, py_or_int, hn, GROQ_MAX_OUTPUT_TOKENS]
  refine ⟨heq, fun hlt => ?_, by decide⟩
  rw [heq]
  exact min_eq_right hlt.le

/-- C3 (witness): the spec's own scenario, `max_tokens = 100000` against the
16384 ceiling. -/
theorem effective_max_tokens_clamp_witness :
    effective_max_tokens (parse_max_tokens (JsonField.value 100000)) = 16384 :=
  (effective_max_tokens_clamp 100000 (by decide)).2.1 (by decide)

/-- C8: the normalized upstream request is independent of the inbound
`model` field — two requests differing only in `model` produce identical
upstream calls — and the model identity sent upstream is the fixed
configured one. -/
theorem upstream_request_model_independent (r : MessagesRequest) (m : String) :
    upstream_request { r with model := m } = upstream_request r ∧
    (upstream_request r).model = GROQ_MODEL :=
  ⟨rfl, rfl⟩

/-- C9: an explicitly supplied `null` or `0` for `max_tokens` yields the
upper bound 16384 upstream, not the documented default 1024; the default
1024 is produced by validation only for an absent field (`null` validates to
`None`, an explicit value to itself). -/
theorem max_tokens_null_zero_absent :
    effective_max_tokens (parse_max_tokens JsonField.null) = 16384 ∧
    effective_max_tokens (parse_max_tokens (JsonField.value 0)) = 16384 ∧
    effective_max_tokens (parse_max_tokens JsonField.absent) = 1024 ∧
    (∀ n : Int, parse_max_tokens (JsonField.value n) = some n) ∧
    parse_max_tokens (JsonField.null : JsonField Int) = none :=
  ⟨by decide, by decide, by decide, fun n => rfl, rfl⟩

